import Mathlib

/-!
Shallow embedding of the ZITEL router-manager client (src/src/main.rs).

The program is a CLI client for a router's "Leano" HTTP control API:
it authenticates once, then dispatches one-shot commands (`set_dmz`,
`set_band_lock`, `get_neighbour_cell`) and a live-dashboard polling loop
(`get_index_data_loop`) with a six-page pagination state machine.

Responses are JSON objects whose observed fields are string-valued; we
model a response as an association list from field name to string value,
and serde_json field access `json[k].as_str()` as an `Option String`
lookup.  Network transport is modelled as an oracle supplying the result
of each HTTP round trip (`Except` for transport failure), so that all
control flow of the Rust functions is reproduced while the actual I/O is
abstracted.
-/

/-- Rust `char::is_whitespace`: the Unicode `White_Space` property. -/
def isRustWhitespace (c : Char) : Bool :=
  let n := c.toNat
  (9 ≤ n && n ≤ 13) || n == 32 || n == 0x85 || n == 0xA0 || n == 0x1680 ||
    (0x2000 ≤ n && n ≤ 0x200A) || n == 0x2028 || n == 0x2029 ||
    n == 0x202F || n == 0x205F || n == 0x3000

/-- Rust `str::trim`: remove leading and trailing Unicode whitespace. -/
def rustTrim (s : String) : String :=
  String.mk
    (((s.data.dropWhile isRustWhitespace).reverse.dropWhile
        isRustWhitespace).reverse)

/-- ASCII lowercasing of one character (`A`-`Z` to `a`-`z`), the
fragment of Rust `char::to_lowercase` relevant to the ASCII command
words this program compares against. -/
def lowerChar (c : Char) : Char :=
  if 65 ≤ c.toNat && c.toNat ≤ 90 then Char.ofNat (c.toNat + 32) else c

/-- Rust `str::to_lowercase`, restricted to its ASCII action (non-ASCII
characters are left unchanged; none of them can produce the ASCII
command words the program matches on). -/
def rustToLowercase (s : String) : String :=
  String.mk (s.data.map lowerChar)

/-- A JSON response with string-valued fields, as an association list
(`serde_json::Value` restricted to the observed string schema). -/
abbrev Response := List (String × String)

/-- Field access `json[k].as_str()`: `some v` when field `k` is present
with string value `v`, `none` otherwise. -/
def getField (r : Response) (k : String) : Option String :=
  List.lookup k r

/-- `const BASE_URL: &str = "http://192.168.0.1";` (main.rs line 14). -/
def BASE_URL : String := "http://192.168.0.1"

/-- `const DEFAULT_DMZ_IP: &str = "192.168.0.98";` (main.rs line 15). -/
def DEFAULT_DMZ_IP : String := "192.168.0.98"

/-- `authenticate()` (main.rs lines 59-83), applied to the parsed JSON
response of the authentication POST.  If `json["status"] == "success"`
it returns the pair `(token, auth_header)`, both set to
`json["token"].as_str().unwrap_or("")`; otherwise it fails with the
error `"Authentication failed"`. -/
def authenticate (r : Response) : Except String (String × String) :=
  if getField r "status" = some "success" then
    let token := (getField r "token").getD ""
    let auth_header := (getField r "token").getD ""
    Except.ok (token, auth_header)
  else
    Except.error "Authentication failed"

/-- An HTTP POST request as assembled by the client: target URL, header
list, raw body. -/
structure Request where
  url : String
  headers : List (String × String)
  body : String
  deriving Repr, DecidableEq

/-- Header lookup on an assembled request. -/
def getHeader (req : Request) (name : String) : Option String :=
  List.lookup name req.headers

/-- `api_request(_token, auth_header, command)` (main.rs lines 85-104):
the POST request it assembles — URL `{BASE_URL}/api.leano`, the four
fixed headers with `Leano_Auth: <auth_header>`, and the raw command
string as body.  The `_token` parameter is unused by the Rust code
(underscore-prefixed) but kept for fidelity. -/
def api_request (_token auth_header command : String) : Request :=
  { url := BASE_URL ++ "/api.leano"
  , headers :=
      [ ("Content-Type", "application/x-www-form-urlencoded; charset=UTF-8")
      , ("Leano_Auth", auth_header)
      , ("Accept", "*/*")
      , ("X-Requested-With", "XMLHttpRequest") ]
  , body := command }

/-- The command string built by `set_dmz` (main.rs lines 106-123) from
the user's input line: the input is trimmed, an empty trimmed input is
replaced by `DEFAULT_DMZ_IP`, and the body is
`format!("set_dmz 1 tcpudp {}", ip)`. -/
def set_dmz_command (input : String) : String :=
  let ip := rustTrim input
  let ip := if ip.data = [] then DEFAULT_DMZ_IP else ip
  "set_dmz 1 tcpudp " ++ ip

/-- `set_band_lock` (main.rs lines 359-374) applied to the user's input
line and a transport oracle giving the result of `api_request` per
command body.  Returns the pair (command sent, message printed): an
empty trimmed EARFCN prints `"EARFCN cannot be empty"` and returns
`Ok` without any network request; otherwise the command
`set_band_lock <earfcn>` is sent and a transport failure propagates
(the `?` operator). -/
def set_band_lock (net : String → Except String Response) (input : String) :
    Except String (Option String × Option String) :=
  let earfcn := rustTrim input
  if earfcn.data = [] then
    Except.ok (none, some "EARFCN cannot be empty")
  else
    match net ("set_band_lock " ++ earfcn) with
    | Except.ok _ => Except.ok (some ("set_band_lock " ++ earfcn), none)
    | Except.error e => Except.error e

/-- The page counter's initial value: `let mut current_page = 1;`
(main.rs line 126). -/
def initial_page : Nat := 1

/-- `const TOTAL_PAGES: u8 = 6;` (main.rs line 127). -/
def TOTAL_PAGES : Nat := 6

/-- The `Next` transition of the pagination state machine:
`current_page = (current_page % TOTAL_PAGES) + 1;` (main.rs line 157). -/
def nextPage (p : Nat) : Nat :=
  (p % TOTAL_PAGES) + 1

/-- The `Previous` transition of the pagination state machine:
`current_page = if current_page == 1 { TOTAL_PAGES } else { current_page - 1 };`
(main.rs line 160). -/
def prevPage (p : Nat) : Nat :=
  if p = 1 then TOTAL_PAGES else p - 1

/-- One navigation step of the dashboard loop (main.rs lines 155-164):
the input line is trimmed and lowercased, then matched.  Result is
`(new page state, message printed)`: `none` as the page means `break`
(quit); any unrecognized input leaves the page unchanged and prints
`"Invalid command"`. -/
def nav_step_full (p : Nat) (input : String) : Option Nat × Option String :=
  let cmd := rustToLowercase (rustTrim input)
  if cmd = "n" ∨ cmd = "next" then
    (some (nextPage p), none)
  else if cmd = "p" ∨ cmd = "prev" ∨ cmd = "previous" then
    (some (prevPage p), none)
  else if cmd = "q" ∨ cmd = "quit" then
    (none, none)
  else
    (some p, some "Invalid command")

/-- Outcome of running `get_index_data_loop`, together with the number
of `get_index_data` polls performed when the loop ended. -/
inductive LoopResult where
  /-- The user quit (`break`): the loop returned `Ok(())`. -/
  | quit (polls : Nat)
  /-- A transport/protocol error on a poll: the `?` on `api_request`
  returned the error from `get_index_data_loop`. -/
  | failed (polls : Nat) (e : String)
  /-- The loop is blocked inside `io::stdin().read_line` waiting for a
  line that never arrives: no further poll happens. -/
  | blockedOnInput (polls : Nat)
  deriving Repr, DecidableEq

/-- Number of polls performed by the time the loop ended (or blocked). -/
def pollCount : LoopResult → Nat
  | LoopResult.quit n => n
  | LoopResult.failed n _ => n
  | LoopResult.blockedOnInput n => n

/-- `get_index_data_loop` (main.rs lines 125-171).  Each iteration, in
source order: issue the `get_index_data` poll (`api_request ... ?`, so a
transport error ends the loop with that error), display the current
page, then **block** on `io::stdin().read_line` for a navigation line,
and finally apply `nav_step_full`.  `net` is the transport oracle giving
the result of the k-th poll; `inputs` is the list of navigation lines
the user will ever type; `polls` counts polls already made.  Both
pattern branches consult the poll result first, matching the source
order (the poll precedes the read).  When `inputs` is exhausted the
loop is stuck in the blocking read — no further poll occurs. -/
def get_index_data_loop (net : Nat → Except String Response) :
    List String → Nat → Nat → LoopResult
  | [], _page, polls =>
    match net polls with
    | Except.error e => LoopResult.failed (polls + 1) e
    | Except.ok _resp => LoopResult.blockedOnInput (polls + 1)
  | input :: rest, page, polls =>
    match net polls with
    | Except.error e => LoopResult.failed (polls + 1) e
    | Except.ok _resp =>
      match nav_step_full page input with
      | (none, _) => LoopResult.quit (polls + 1)
      | (some p, _) => get_index_data_loop net rest p (polls + 1)

/-- A transport oracle on which every poll succeeds with an empty
response object. -/
def okNet : Nat → Except String Response := fun _ => Except.ok []

/-- Outcome of one round of the interactive menu in `main`
(main.rs lines 28-52). -/
inductive MenuOutcome where
  /-- Control returns to the top of the menu loop. -/
  | menu
  /-- `"5"`: `break` out of the menu loop (normal exit). -/
  | exitNormal
  /-- The `?` on a handler's `Err` returned the error from `main`:
  the process terminates with this error, the menu is not re-entered. -/
  | abort (e : String)
  deriving Repr, DecidableEq

/-- One round of `main`'s menu loop (main.rs lines 41-51): the choice
line is trimmed and matched; choices 1-4 run a handler whose result is
`result`, and the `?` operator turns a handler `Err` into a return from
`main` (process abort); `"5"` breaks; anything else prints
`"Invalid option"` and loops. -/
def main_menu_step (choice : String) (result : Except String Unit) : MenuOutcome :=
  let c := rustTrim choice
  if c = "1" ∨ c = "2" ∨ c = "3" ∨ c = "4" then
    match result with
    | Except.ok _ => MenuOutcome.menu
    | Except.error e => MenuOutcome.abort e
  else if c = "5" then
    MenuOutcome.exitNormal
  else
    MenuOutcome.menu

/-- Rust `str::parse::<usize>()` on a 64-bit target: an optional leading
`+`, then one or more ASCII digits, value at most `usize::MAX`
(2^64 - 1); anything else (empty, stray characters, overflow) fails. -/
def parse_usize (s : String) : Option Nat :=
  let cs :=
    match s.data with
    | '+' :: rest => rest
    | cs => cs
  if cs = [] then none
  else if cs.all (fun c => 48 ≤ c.toNat && c.toNat ≤ 57) then
    let n := cs.foldl (fun acc c => acc * 10 + (c.toNat - 48)) 0
    if n < 2 ^ 64 then some n else none
  else none

/-- The six field keys read for neighbor cell `i` by the body of the
`for i in 1..=count` loop in `get_neighbour_cells`
(main.rs lines 343-352): `type{i}`, `band{i}`, `pcid{i}`, `rsrq{i}`,
`rsrp{i}`, `rsrppp{i}`. -/
def cellKeys (i : Nat) : List String :=
  [ "type" ++ toString i
  , "band" ++ toString i
  , "pcid" ++ toString i
  , "rsrq" ++ toString i
  , "rsrp" ++ toString i
  , "rsrppp" ++ toString i ]

/-- The list of response fields `get_neighbour_cells`
(main.rs lines 325-357) reads for rendering cells, in order: when
`response["lenghtt"]` is a string that parses as `count`, the keys
`cellKeys i` for `i = 1..count`; when `lenghtt` is absent or fails to
parse, no cell field at all. -/
def neighbour_cells_read (resp : Response) : List String :=
  match getField resp "lenghtt" with
  | some s =>
    match parse_usize s with
    | some count => (List.range count).flatMap (fun i => cellKeys (i + 1))
    | none => []
  | none => []

/-- `get_neighbour_cells` end to end: `net` is the transport result of
the single `get_neighbour_cell` request.  A transport failure propagates
(the `?` on `api_request`); otherwise the function renders the cells and
returns `Ok` — there is no error path after the response arrives, a
malformed `lenghtt` just renders zero cells.  The value carried by `Ok`
is the list of cell fields read. -/
def get_neighbour_cells (net : Except String Response) :
    Except String (List String) :=
  match net with
  | Except.error e => Except.error e
  | Except.ok resp => Except.ok (neighbour_cells_read resp)

/-- Claim C1: for every authentication response, if the response JSON
has `status == "success"`, `authenticate()` returns a session whose
token is exactly the response's `token` field (token `"T"` yields a
session carrying `"T"`); if `status` is anything else, `authenticate()`
fails with the authentication-rejected error and no session value is
produced. -/
theorem authenticate_spec (r : Response) :
    (∀ t, getField r "status" = some "success" →
      getField r "token" = some t →
      authenticate r = Except.ok (t, t)) ∧
    (getField r "status" ≠ some "success" →
      authenticate r = Except.error "Authentication failed") := by
  constructor
  · intro t hs ht
    simp [authenticate, hs, ht]
  · intro hs
    simp [authenticate, hs]

/-- Witness for `authenticate_spec` at the concrete responses
`{status: "success", token: "T"}` and `{status: "failed"}`. -/
theorem authenticate_spec_witness :
    authenticate [("status", "success"), ("token", "T")] =
      Except.ok ("T", "T") ∧
    authenticate [("status", "failed")] =
      Except.error "Authentication failed" :=
  ⟨(authenticate_spec [("status", "success"), ("token", "T")]).1 "T"
      (by decide) (by decide),
   (authenticate_spec [("status", "failed")]).2 (by decide)⟩

/-- Claim C2: for every command request issued after a successful
`authenticate()`, the `Leano_Auth` header value sent on the request
equals exactly the token string returned by that authentication, and
this value is identical across all calls in the session (never
mutated). -/
theorem leano_auth_header_constant (r : Response) (token auth_header : String)
    (h : authenticate r = Except.ok (token, auth_header)) :
    (∀ cmd,
      getHeader (api_request token auth_header cmd) "Leano_Auth" =
        some token) ∧
    (∀ c₁ c₂,
      getHeader (api_request token auth_header c₁) "Leano_Auth" =
        getHeader (api_request token auth_header c₂) "Leano_Auth") := by
  have htok : auth_header = token := by
    unfold authenticate at h
    split at h
    · simp only [Except.ok.injEq, Prod.mk.injEq] at h
      rw [← h.1, ← h.2]
    · exact absurd h (by simp)
  have hdr : ∀ cmd,
      getHeader (api_request token auth_header cmd) "Leano_Auth" =
        some auth_header := fun _ => rfl
  refine ⟨fun cmd => ?_, fun c₁ c₂ => ?_⟩
  · rw [hdr cmd, htok]
  · rw [hdr c₁, hdr c₂]

/-- Witness for `leano_auth_header_constant`: authenticating against
`{status: "success", token: "T"}` and issuing `get_index_data`. -/
theorem leano_auth_header_constant_witness :
    getHeader (api_request "T" "T" "get_index_data") "Leano_Auth" =
      some "T" :=
  (leano_auth_header_constant [("status", "success"), ("token", "T")]
      "T" "T" (by rfl)).1 "get_index_data"

/-- Claim C7: when the user supplies no IP address (empty input after
trimming) to `set_dmz`, the command body sent to the device equals
exactly `"set_dmz 1 tcpudp 192.168.0.98"` (the documented default
IP). -/
theorem set_dmz_default_ip (input : String)
    (h : (rustTrim input).data = []) :
    set_dmz_command input = "set_dmz 1 tcpudp 192.168.0.98" ∧
    (∀ token auth_header,
      (api_request token auth_header (set_dmz_command input)).body =
        "set_dmz 1 tcpudp 192.168.0.98") := by
  have hcmd : set_dmz_command input = "set_dmz 1 tcpudp 192.168.0.98" := by
    simp [set_dmz_command, h]
    decide
  exact ⟨hcmd, fun token auth_header => by rw [show (api_request token
    auth_header (set_dmz_command input)).body = set_dmz_command input
    from rfl, hcmd]⟩

/-- Witness for `set_dmz_default_ip` at the input line that is a bare
newline (what pressing Enter produces). -/
theorem set_dmz_default_ip_witness :
    set_dmz_command "\n" = "set_dmz 1 tcpudp 192.168.0.98" :=
  (set_dmz_default_ip "\n" (by decide)).1

/-- Claim C10: if the user enters an empty (or whitespace-only) EARFCN,
`set_band_lock` sends no network request at all, prints a message, and
returns successfully (no error). -/
theorem set_band_lock_empty_input (net : String → Except String Response)
    (input : String) (h : (rustTrim input).data = []) :
    set_band_lock net input =
      Except.ok (none, some "EARFCN cannot be empty") := by
  simp [set_band_lock, h]

/-- Witness for `set_band_lock_empty_input` at the whitespace-only
input `" \n"`, with a transport oracle that would answer any request. -/
theorem set_band_lock_empty_input_witness :
    set_band_lock (fun _ => Except.ok [("status", "success")]) " \n" =
      Except.ok (none, some "EARFCN cannot be empty") :=
  set_band_lock_empty_input (fun _ => Except.ok [("status", "success")])
    " \n" (by decide)

/-- Claim C4: in the pagination state machine starting at DataUsage
(page 1), six consecutive `Next` transitions return to DataUsage; one
`Previous` from DataUsage yields System (page 6, the last page); and
`Next` followed by `Previous` (and `Previous` followed by `Next`)
restores the original page, for every page in the 6-element cycle. -/
theorem pagination_cyclic :
    nextPage (nextPage (nextPage (nextPage (nextPage (nextPage
      initial_page))))) = initial_page ∧
    prevPage initial_page = TOTAL_PAGES ∧
    (∀ p, 1 ≤ p → p ≤ TOTAL_PAGES →
      prevPage (nextPage p) = p ∧ nextPage (prevPage p) = p) := by
  refine ⟨by decide, by decide, ?_⟩
  intro p h1 h6
  have h6' : p ≤ 6 := h6
  interval_cases p <;> exact ⟨by decide, by decide⟩

/-- Witness for `pagination_cyclic`: the inverse laws instantiated at
page 3 (Network). -/
theorem pagination_cyclic_witness :
    prevPage (nextPage 3) = 3 ∧ nextPage (prevPage 3) = 3 :=
  pagination_cyclic.2.2 3 (by decide) (by decide)

/-- Claim C8: the current-page state of the pagination loop is always a
member of the fixed 6-element page set (pages 1 through 6): it starts
in the set and every transition (`Next`, `Previous`, `Quit`, or any
other input) maps a member of the set to a member of the set. -/
theorem page_invariant :
    (initial_page = 1 ∧ 1 ≤ initial_page ∧ initial_page ≤ TOTAL_PAGES) ∧
    (∀ p input q, 1 ≤ p → p ≤ TOTAL_PAGES →
      (nav_step_full p input).1 = some q → 1 ≤ q ∧ q ≤ TOTAL_PAGES) := by
  refine ⟨by decide, ?_⟩
  intro p input q h1 h6 hstep
  have h6' : p ≤ 6 := h6
  simp only [nav_step_full] at hstep
  split_ifs at hstep with hA hB hC
  · simp only [Option.some.injEq] at hstep
    subst hstep
    unfold nextPage TOTAL_PAGES
    omega
  · simp only [Option.some.injEq] at hstep
    subst hstep
    unfold prevPage TOTAL_PAGES
    split <;> omega
  · simp only [Option.some.injEq] at hstep
    subst hstep
    exact ⟨h1, h6⟩

/-- Witness for `page_invariant`: a `Next` step from page 1 lands on
page 2, inside the 6-page set. -/
theorem page_invariant_witness : 1 ≤ 2 ∧ 2 ≤ TOTAL_PAGES :=
  page_invariant.2 1 "n" 2 (by decide) (by decide) (by decide)

/-- Claim C9: for every navigation input that is not a `Next`,
`Previous`, or `Quit` command, the pagination state is left unchanged
(the same page stays current) and an `"Invalid command"` message is
reported to the user. -/
theorem invalid_command_frame (p : Nat) (input : String)
    (h : rustToLowercase (rustTrim input) ∉
      (["n", "next", "p", "prev", "previous", "q", "quit"] :
        List String)) :
    nav_step_full p input = (some p, some "Invalid command") := by
  simp only [nav_step_full]
  split_ifs with hA hB hC
  · rcases hA with h' | h' <;> rw [h'] at h <;> exact absurd (by decide) h
  · rcases hB with h' | h' | h' <;> rw [h'] at h <;>
      exact absurd (by decide) h
  · rcases hC with h' | h' <;> rw [h'] at h <;> exact absurd (by decide) h
  · rfl

/-- Witness for `invalid_command_frame` at page 3 with the input
`"x"`. -/
theorem invalid_command_frame_witness :
    nav_step_full 3 "x" = (some 3, some "Invalid command") :=
  invalid_command_frame 3 "x" (by decide)

/-- Claim C6: for every neighbor-cell response, if `lenghtt` parses as
a number `N`, the client reads and renders exactly the cell fields with
suffixes 1 through `N` and no others; if `lenghtt` is non-numeric, zero
cells are rendered and the operation completes without an error
abort. -/
theorem neighbour_cells_indexing (resp : Response) :
    (∀ s n, getField resp "lenghtt" = some s → parse_usize s = some n →
      ∀ k, k ∈ neighbour_cells_read resp ↔
        ∃ i, 1 ≤ i ∧ i ≤ n ∧ k ∈ cellKeys i) ∧
    (∀ s, getField resp "lenghtt" = some s → parse_usize s = none →
      neighbour_cells_read resp = [] ∧
      get_neighbour_cells (Except.ok resp) = Except.ok []) := by
  constructor
  · intro s n hs hn k
    simp only [neighbour_cells_read, hs, hn]
    simp only [List.mem_flatMap, List.mem_range]
    constructor
    · rintro ⟨i, hi, hk⟩
      exact ⟨i + 1, by omega, by omega, hk⟩
    · rintro ⟨i, hi1, hin, hk⟩
      refine ⟨i - 1, by omega, ?_⟩
      have : i - 1 + 1 = i := by omega
      rw [this]
      exact hk
  · intro s hs hn
    have hread : neighbour_cells_read resp = [] := by
      simp [neighbour_cells_read, hs, hn]
    exact ⟨hread, by simp [get_neighbour_cells, hread]⟩

/-- Witness for `neighbour_cells_indexing`: a response with
`lenghtt = "2"` reads `type1` (suffix 1 of 2), and a response with the
non-numeric `lenghtt = "x"` reads no cell field and still returns
`Ok`. -/
theorem neighbour_cells_indexing_witness :
    (("type1" : String) ∈ neighbour_cells_read [("lenghtt", "2")] ↔
      ∃ i, 1 ≤ i ∧ i ≤ 2 ∧ ("type1" : String) ∈ cellKeys i) ∧
    neighbour_cells_read [("lenghtt", "x")] = [] ∧
    get_neighbour_cells (Except.ok [("lenghtt", "x")]) = Except.ok [] :=
  ⟨(neighbour_cells_indexing [("lenghtt", "2")]).1 "2" 2 (by decide)
      (by decide) "type1",
   (neighbour_cells_indexing [("lenghtt", "x")]).2 "x" (by decide)
      (by decide)⟩

/-- Counterexample to claim C3: with a transport on which every poll
succeeds, the dashboard loop run with no pending input line performs
exactly one poll and is then blocked inside the `read_line` call, while
the same loop with one pending `"n"` line performs two polls — the
poll cadence is stalled by the absence of user input, because the loop
blocks on `io::stdin().read_line` every iteration instead of checking a
cancellation signal non-blockingly. -/
theorem polling_blocks_on_input_cex :
    get_index_data_loop okNet [] 1 0 = LoopResult.blockedOnInput 1 ∧
    get_index_data_loop okNet ["n"] 1 0 = LoopResult.blockedOnInput 2 ∧
    pollCount (get_index_data_loop okNet [] 1 0) ≠
      pollCount (get_index_data_loop okNet ["n"] 1 0) := by
  exact ⟨by decide, by decide, by decide⟩

/-- Claim C3 as amended: the dashboard loop is fully synchronous — each
iteration polls once and then blocks reading one line of input, so the
number of polls ever performed is at most one more than the number of
input lines supplied; every line whose trimmed, lowercased form is
`"q"` or `"quit"` (so a case-insensitive quit word, e.g. `"Q"`,
`"QUIT"`) exits the loop cleanly right after that iteration's poll.
There is no concurrent watcher task and no non-blocking cancellation
check. -/
theorem polling_loop_blocking_amended :
    (∀ net inputs page polls,
      pollCount (get_index_data_loop net inputs page polls) ≤
        polls + inputs.length + 1) ∧
    (∀ net input rest page polls r, net polls = Except.ok r →
      (rustToLowercase (rustTrim input) = "q" ∨
        rustToLowercase (rustTrim input) = "quit") →
      get_index_data_loop net (input :: rest) page polls =
        LoopResult.quit (polls + 1)) := by
  constructor
  · intro net inputs
    induction inputs with
    | nil =>
      intro page polls
      unfold get_index_data_loop
      cases hnet : net polls <;> simp [pollCount]
    | cons input rest ih =>
      intro page polls
      unfold get_index_data_loop
      cases hnet : net polls with
      | error e => simp [pollCount]
      | ok rr =>
        simp only [List.length_cons]
        cases hstep : nav_step_full page input with
        | mk fst snd =>
          cases fst with
          | none => simp [pollCount]
          | some p =>
            simp only []
            have := ih p (polls + 1)
            omega
  · intro net input rest page polls r h hcmd
    have hnav : nav_step_full page input = (none, none) := by
      rcases hcmd with h' | h' <;>
        · simp only [nav_step_full, h']
          rw [if_neg (by decide), if_neg (by decide), if_pos (by decide)]
    unfold get_index_data_loop
    rw [h, hnav]

/-- Witness for `polling_loop_blocking_amended`: the poll bound at two
input lines, and the case-insensitive quit at the input line `"QUIT"`
on the always-succeeding transport. -/
theorem polling_loop_blocking_witness :
    pollCount (get_index_data_loop okNet ["n", "n"] 1 0) ≤ 3 ∧
    get_index_data_loop okNet ["QUIT"] 1 0 = LoopResult.quit 1 :=
  ⟨polling_loop_blocking_amended.1 okNet ["n", "n"] 1 0,
   polling_loop_blocking_amended.2 okNet "QUIT" [] 1 0 [] rfl
     (Or.inr (by decide))⟩

/-- Counterexample to claim C5: when the handler of menu option 1
(`set_dmz`) fails with a transport error, `main`'s `?` operator turns
the failure into a return from `main` — the process aborts with the
error and control does NOT return to the interactive menu. -/
theorem one_shot_error_aborts_cex :
    main_menu_step "1" (Except.error "connection timed out") =
      MenuOutcome.abort "connection timed out" ∧
    main_menu_step "1" (Except.error "connection timed out") ≠
      MenuOutcome.menu := by
  exact ⟨by decide, by decide⟩

/-- Claim C5 as amended: a transport/protocol error in any one-shot
command (menu options 1, 3, 4) or in the dashboard loop (option 2)
propagates through `main`'s `?` operator and terminates the program
with that error (the runtime prints it on exit) — the menu is not
re-entered; the polling loop terminates immediately on the first
failing poll, carrying the error out unchanged.  In neither case is
the error silently swallowed or the call retried. -/
theorem error_propagation_amended :
    (∀ e, main_menu_step "1" (Except.error e) = MenuOutcome.abort e ∧
      main_menu_step "2" (Except.error e) = MenuOutcome.abort e ∧
      main_menu_step "3" (Except.error e) = MenuOutcome.abort e ∧
      main_menu_step "4" (Except.error e) = MenuOutcome.abort e) ∧
    (∀ net inputs page polls e, net polls = Except.error e →
      get_index_data_loop net inputs page polls =
        LoopResult.failed (polls + 1) e) := by
  constructor
  · intro e
    exact ⟨rfl, rfl, rfl, rfl⟩
  · intro net inputs page polls e h
    cases inputs <;> unfold get_index_data_loop <;> rw [h]

/-- Witness for `error_propagation_amended`: a failing `set_dmz`
aborts the program with its error, and a transport that fails on the
first poll ends the dashboard loop with that same error after exactly
one poll. -/
theorem error_propagation_witness :
    main_menu_step "1" (Except.error "boom") = MenuOutcome.abort "boom" ∧
    get_index_data_loop (fun _ => Except.error "boom") [] 1 0 =
      LoopResult.failed 1 "boom" :=
  ⟨(error_propagation_amended.1 "boom").1,
   error_propagation_amended.2 (fun _ => Except.error "boom") [] 1 0
     "boom" rfl⟩
